import Mathlib

/-
Shallow embedding of the Series 27 outlier-analysis script
(src/backups/phase0_20250711_064229/Series_27/Analysis/outlier_analysis_series27.py).

Modelling conventions:
- pandas float values are modelled as exact rationals; the float NaN produced by
  a sample standard deviation over fewer than two values is modelled by the
  length guard in zscoreKeep (any comparison against NaN is false in pandas,
  so no row is kept).
- A workbook is a partial map from sheet name to a column-oriented table;
  pd.read_excel failing (missing sheet) is the none case.
- Python string helpers (str.split, int(), str.lower, substring test,
  re.findall of the 4-digit-year pattern) are re-implemented by structural
  recursion over the character list, restricted to the ASCII data the
  workbook uses.
- os.path.join is rendered with a forward slash, matching its POSIX result.
-/

/-- A row of the long-form differences table produced by
`diff_df.melt(id_vars='Year_Pair', var_name='Sensor', value_name='Difference')`:
the year-pair label, the sensor column label of the wide table, and the
signed difference value. -/
structure DiffRecord where
  yearPair : String
  sensor : String
  difference : ℚ
deriving DecidableEq, Repr

/-- A row of the corrections summary assembled in `main` (one dict appended to
`corrections` per successfully corrected outlier). -/
structure CorrectionRecord where
  yearPair : String
  sensor : Int
  origDiff : ℚ
  offsetApplied : ℚ
  correctedFile : String
deriving DecidableEq, Repr

/-- A raw-data sheet, column oriented: column name paired with its values,
in sheet column order. -/
abbrev RawTable := List (String × List ℚ)

/-- Uncaught Python exceptions that escape `main` and abort the run. -/
inductive PipelineErr where
  /-- `row['Sensor'].split()[-1]` on a whitespace-only label (IndexError). -/
  | sensorIndex : PipelineErr
  /-- `int(...)` on a non-numeric token (ValueError). -/
  | sensorParse : String → PipelineErr
  /-- `df_raw.columns[-1]` on a zero-column sheet (IndexError). -/
  | emptyColumns : String → PipelineErr
  /-- `df_raw[col]` with `col` absent (KeyError) — note: NOT caught by the
  try/except in the source, which only wraps `pd.read_excel`. -/
  | missingColumn : String → PipelineErr
deriving DecidableEq, Repr

/-- Errors of the whole pipeline run. -/
inductive RunErr where
  /-- argparse rejects a method outside `choices=['abs','zscore','iqr']`
  and exits before any file access. -/
  | invalidMethodChoice : String → RunErr
  /-- the ValueError raised at the end of `detect_outliers`. -/
  | detectFailed : String → RunErr
  /-- an uncaught exception escaping the correction loop. -/
  | loopErr : PipelineErr → RunErr
deriving DecidableEq, Repr

/-- Accumulator-style split of a character list on whitespace runs, mirroring
Python `str.split()` with no separator argument (runs of whitespace are one
separator; no empty tokens; leading/trailing whitespace dropped). -/
def splitWsAux : List Char → List Char → List (List Char)
  | acc, [] => if acc = [] then [] else [acc.reverse]
  | acc, c :: cs =>
    if c.isWhitespace then
      (if acc = [] then [] else [acc.reverse]) ++ splitWsAux [] cs
    else splitWsAux (c :: acc) cs

/-- Python `s.split()` (whitespace, no empties). -/
def splitWs (s : String) : List (List Char) := splitWsAux [] s.toList

/-- Decimal value of an ASCII digit character. -/
def digitVal (c : Char) : Nat := c.toNat - 48

/-- Fold a digit list into the number it denotes. -/
def digitsToNat : List Char → Nat → Nat
  | [], n => n
  | c :: cs, n => digitsToNat cs (n * 10 + digitVal c)

/-- Python `int(token)` on an already-stripped token: optional sign followed by
at least one ASCII digit; anything else raises ValueError (none here). -/
def parseIntTok : List Char → Option Int
  | [] => none
  | '-' :: rest =>
    if rest ≠ [] ∧ rest.all Char.isDigit then some (-(digitsToNat rest 0 : Int)) else none
  | '+' :: rest =>
    if rest ≠ [] ∧ rest.all Char.isDigit then some (digitsToNat rest 0 : Int) else none
  | c :: rest =>
    if (c :: rest).all Char.isDigit then some (digitsToNat (c :: rest) 0 : Int) else none

/-- `int(row['Sensor'].split()[-1])` — last whitespace token of the sensor
label, parsed as an integer; both failure modes abort the run in the source. -/
def parseSensor (s : String) : Except PipelineErr Int :=
  match (splitWs s).getLast? with
  | none => Except.error PipelineErr.sensorIndex
  | some tok =>
    match parseIntTok tok with
    | none => Except.error (PipelineErr.sensorParse (String.mk tok))
    | some n => Except.ok n

/-- `re.findall(r'(\d{4})', pair)`: scan left to right; at each position a run
of exactly four digit characters is a match, consumed whole (non-overlapping);
otherwise advance one character. -/
def findYears : List Char → List Nat
  | a :: b :: c :: d :: rest =>
    if a.isDigit ∧ b.isDigit ∧ c.isDigit ∧ d.isDigit then
      (digitVal a * 1000 + digitVal b * 100 + digitVal c * 10 + digitVal d)
        :: findYears rest
    else findYears (b :: c :: d :: rest)
  | _ => []

/-- Does `pat` lead the second list? -/
def beginsWith : List Char → List Char → Bool
  | [], _ => true
  | _ :: _, [] => false
  | p :: ps, h :: hs => p == h && beginsWith ps hs

/-- Does `pat` occur as a contiguous subsequence? -/
def containsSeq (pat : List Char) : List Char → Bool
  | [] => beginsWith pat []
  | h :: hs => beginsWith pat (h :: hs) || containsSeq pat hs

/-- Python `'time' in name.lower()` (line 111 of the source). -/
def containsTime (name : String) : Bool :=
  containsSeq "time".toList (name.toList.map Char.toLower)

/-- pandas `col.mean()` over the modelled (NaN-free) difference column. -/
def listMean (ds : List ℚ) : ℚ := ds.sum / (ds.length : ℚ)

/-- pandas `col.std()` squared: the sample variance with ddof = 1,
`Σ (d - μ)² / (n - 1)`.  Only consulted for `n ≥ 2` (see `zscoreKeep`). -/
def sampleVar (ds : List ℚ) : ℚ :=
  (ds.map (fun d => (d - listMean ds) * (d - listMean ds))).sum
    / ((ds.length : ℚ) - 1)

/-- The zscore row condition `(col - col.mean()).abs() >= z_thr * col.std()`
(line 69), rendered exactly over ℚ.  For fewer than two values, `col.std()` is
NaN and the pandas comparison is false for every row.  Otherwise
`σ = √(sampleVar) ≥ 0`, so for `z < 0` the right side is `≤ 0 ≤ |d - μ|` and
the comparison holds, and for `z ≥ 0` both sides are nonnegative and the
comparison is equivalent to its square `(d - μ)² ≥ z² · sampleVar`. -/
def zscoreKeep (ds : List ℚ) (z : ℚ) (d : ℚ) : Bool :=
  if ds.length < 2 then false
  else if z < 0 then true
  else decide (z * z * sampleVar ds ≤ (d - listMean ds) * (d - listMean ds))

/-- Insert into a sorted list (ascending). -/
def insertSorted (x : ℚ) : List ℚ → List ℚ
  | [] => [x]
  | y :: ys => if x ≤ y then x :: y :: ys else y :: insertSorted x ys

/-- Insertion sort, ascending. -/
def sortQ (l : List ℚ) : List ℚ := l.foldr insertSorted []

/-- pandas `col.quantile(p)` with the default linear interpolation:
on the sorted values, position `h = (n-1)·p`, interpolate between the
neighbouring order statistics.  (Only used on nonempty data.) -/
def quantile (ds : List ℚ) (p : ℚ) : ℚ :=
  let xs := sortQ ds
  let h : ℚ := ((xs.length : ℚ) - 1) * p
  let i : Nat := (Rat.floor h).toNat
  let lo := xs.getD i 0
  let hi := xs.getD (i + 1) lo
  lo + (h - (Rat.floor h : ℚ)) * (hi - lo)

/-- The iqr row condition `(col < lower) | (col > upper)` (lines 70-74).
On an empty column both quantiles are NaN in pandas and every comparison is
false, modelled by the length guard. -/
def iqrKeep (ds : List ℚ) (fac : ℚ) (d : ℚ) : Bool :=
  if ds.length = 0 then false
  else
    let q1 := quantile ds (1 / 4)
    let q3 := quantile ds (3 / 4)
    let iqr := q3 - q1
    decide (d < q1 - fac * iqr ∨ q3 + fac * iqr < d)

/-- `detect_outliers(df, method, abs_thr, z_thr, iqr_fac)` (lines 46-75):
filter the table by the selected method over the Difference column, raising
ValueError on an unknown method. -/
def detectOutliers (df : List DiffRecord) (method : String)
    (absThr zThr iqrFac : ℚ) : Except String (List DiffRecord) :=
  let ds := df.map (fun r => r.difference)
  if method = "abs" then
    Except.ok (df.filter (fun r => decide (absThr ≤ |r.difference|)))
  else if method = "zscore" then
    Except.ok (df.filter (fun r => zscoreKeep ds zThr r.difference))
  else if method = "iqr" then
    Except.ok (df.filter (fun r => iqrKeep ds iqrFac r.difference))
  else Except.error ("Unknown method: " ++ method)

/-- Lines 110-112: drop the last column when its name contains "time"
case-insensitively (timestamp artifact), otherwise keep the table as is. -/
def dropTimeCol (t : RawTable) : RawTable :=
  match t.getLast? with
  | none => t
  | some lastCol => if containsTime lastCol.1 then t.dropLast else t

/-- First column of the given name, as pandas `df[col]` would select it. -/
def getCol (t : RawTable) (c : String) : Option (List ℚ) :=
  (t.find? (fun p => p.1 == c)).map (fun p => p.2)

/-- Loop body of `main` (lines 94-128) for one flagged outlier `row`.
Result: `.ok none` when the row is skipped (malformed year-pair label, or
unreadable raw sheet — the only exception the source catches), `.ok (some
(record, path, table))` for a successful correction together with the file
write it performs, `.error` for the uncaught exceptions that abort the run. -/
def correctOne (wb : String → Option RawTable) (inputBase outDir : String)
    (row : DiffRecord) :
    Except PipelineErr (Option (CorrectionRecord × String × RawTable)) :=
  match parseSensor row.sensor with
  | Except.error e => Except.error e
  | Except.ok sensor =>
    let years := findYears row.yearPair.toList
    if years.length = 2 then
      let nextYear := years.headD 0
      let sheet := "Raw Data " ++ toString nextYear
      match wb sheet with
      | none => Except.ok none
      | some dfRaw0 =>
        match dfRaw0.getLast? with
        | none => Except.error (PipelineErr.emptyColumns sheet)
        | some _ =>
          let dfRaw := dropTimeCol dfRaw0
          let col := "V" ++ toString sensor
          if dfRaw.any (fun p => p.1 == col) then
            let offset := -row.difference
            let dfNew := dfRaw.map (fun p =>
              if p.1 == col then (p.1, p.2.map (fun v => v + offset)) else p)
            let outFile :=
              outDir ++ "/" ++ inputBase ++ "_" ++ toString nextYear
                ++ "_corrected.xlsx"
            Except.ok (some
              ({ yearPair := row.yearPair, sensor := sensor,
                 origDiff := row.difference, offsetApplied := offset,
                 correctedFile := outFile }, outFile, dfNew))
          else Except.error (PipelineErr.missingColumn col)
    else Except.ok none

/-- The correction loop of `main` over the detected outliers, in order:
collects the summary rows and the file writes (path, content) it performs;
an uncaught exception aborts the remainder of the loop. -/
def runCorrections (wb : String → Option RawTable) (inputBase outDir : String) :
    List DiffRecord →
      Except PipelineErr (List CorrectionRecord × List (String × RawTable))
  | [] => Except.ok ([], [])
  | row :: rest =>
    match correctOne wb inputBase outDir row with
    | Except.error e => Except.error e
    | Except.ok res =>
      match runCorrections wb inputBase outDir rest with
      | Except.error e => Except.error e
      | Except.ok (recs, writes) =>
        match res with
        | none => Except.ok (recs, writes)
        | some (rec, path, tbl) =>
          Except.ok (rec :: recs, (path, tbl) :: writes)

/-- The state of an output file after a sequence of writes: each
`df.to_excel(out_file, ...)` replaces the file, so the last write to a path
wins. -/
def lastWrite (writes : List (String × RawTable)) (path : String) :
    Option RawTable :=
  ((writes.filter (fun w => w.1 == path)).getLast?).map (fun w => w.2)

/-- `choices=['abs','zscore','iqr']` of the `-m` argument (line 24). -/
def methodChoices : List String := ["abs", "zscore", "iqr"]

/-- The run, from argument validation onward: argparse validates the method
against its choices and exits before any file is touched; then the melted
summary table is fed to the detector, and the correction loop runs over the
flagged rows. -/
def pipelineRun (method : String) (absThr zThr iqrFac : ℚ)
    (inputBase outDir : String) (wb : String → Option RawTable)
    (summary : List DiffRecord) :
    Except RunErr (List CorrectionRecord × List (String × RawTable)) :=
  if method ∈ methodChoices then
    match detectOutliers summary method absThr zThr iqrFac with
    | Except.error m => Except.error (RunErr.detectFailed m)
    | Except.ok outliers =>
      match runCorrections wb inputBase outDir outliers with
      | Except.error e => Except.error (RunErr.loopErr e)
      | Except.ok res => Except.ok res
  else Except.error (RunErr.invalidMethodChoice method)

/-- Example workbook: one raw sheet for 2020 with two sensor columns and a
trailing timestamp column. -/
def wbEx : String → Option RawTable := fun s =>
  if s = "Raw Data 2020" then
    some [("V1", [10, 11]), ("V2", [20, 21]), ("TimeStamp", [0, 1])]
  else none

/-- Same workbook except for an unrelated extra sheet. -/
def wbEx2 : String → Option RawTable := fun s =>
  if s = "Raw Data 2021" then some [("V9", [7])]
  else if s = "Raw Data 2020" then
    some [("V1", [10, 11]), ("V2", [20, 21]), ("TimeStamp", [0, 1])]
  else none

/-- Outlier row for sensor 1 of the 2020-2021 pair. -/
def rowS1 : DiffRecord := { yearPair := "2020-2021", sensor := "Sensor 1", difference := 2 }

/-- Outlier row for sensor 2 of the same pair. -/
def rowS2 : DiffRecord := { yearPair := "2020-2021", sensor := "Sensor 2", difference := 1 }

/-- Outlier row naming a sensor with no column in the 2020 sheet. -/
def rowS5 : DiffRecord := { yearPair := "2020-2021", sensor := "Sensor 5", difference := 1 }

/-- Outlier row with a malformed year-pair label (three year tokens). -/
def rowBadPair : DiffRecord := { yearPair := "2020-2021-2022", sensor := "Sensor 1", difference := 1 }

/-- Differences 0, 2, -2: the mean is 0 and the first record sits exactly on it. -/
def exMean : List DiffRecord :=
  [ { yearPair := "2019-2020", sensor := "Sensor 1", difference := 0 },
    { yearPair := "2019-2020", sensor := "Sensor 2", difference := 2 },
    { yearPair := "2019-2020", sensor := "Sensor 3", difference := -2 } ]

/-- Two identical differences: sample standard deviation zero. -/
def exFlat : List DiffRecord :=
  [ { yearPair := "2019-2020", sensor := "Sensor 1", difference := 5 },
    { yearPair := "2019-2020", sensor := "Sensor 2", difference := 5 } ]

/-- A single record with a small difference, for the abs-threshold witness. -/
def exSmall : List DiffRecord :=
  [ { yearPair := "2019-2020", sensor := "Sensor 1", difference := 5 } ]

/-- The summary row the example workbook produces for `rowS1`. -/
def crS1 : CorrectionRecord :=
  { yearPair := "2020-2021", sensor := 1, origDiff := 2,
    offsetApplied := -2, correctedFile := "o/b_2020_corrected.xlsx" }

/-- The corrected table the example workbook produces for `rowS1`:
timestamp column dropped, V1 shifted by -2. -/
def tS1 : RawTable := [("V1", [8, 9]), ("V2", [20, 21])]

/-- The summary row the example workbook produces for `rowS2`. -/
def crS2 : CorrectionRecord :=
  { yearPair := "2020-2021", sensor := 2, origDiff := 1,
    offsetApplied := -1, correctedFile := "o/b_2020_corrected.xlsx" }

/-- The corrected table the example workbook produces for `rowS2`:
timestamp column dropped, V2 shifted by -1. -/
def tS2 : RawTable := [("V1", [10, 11]), ("V2", [19, 20])]

/-- C1: for every input table and every threshold, the abs method keeps exactly
the records with `|difference| ≥ abs_threshold`, as an order-preserving
subsequence, and keeps nothing once the threshold exceeds every absolute
difference in the input. -/
theorem detect_abs_exact (recs : List DiffRecord) (aT zT qF : ℚ) :
    detectOutliers recs "abs" aT zT qF
        = Except.ok (recs.filter (fun r => decide (aT ≤ |r.difference|)))
      ∧ (∀ out, detectOutliers recs "abs" aT zT qF = Except.ok out →
          out.Sublist recs)
      ∧ ((∀ r ∈ recs, |r.difference| < aT) →
          detectOutliers recs "abs" aT zT qF = Except.ok []) := by
  refine ⟨rfl, ?_, ?_⟩
  · intro out h
    have h' : Except.ok (ε := String)
        (recs.filter (fun r => decide (aT ≤ |r.difference|))) = Except.ok out := h
    have := Except.ok.inj h'
    exact this ▸ List.filter_sublist recs
  · intro hall
    have : recs.filter (fun r => decide (aT ≤ |r.difference|)) = [] := by
      rw [List.filter_eq_nil_iff]
      intro r hr
      simpa using not_le.mpr (hall r hr)
    calc detectOutliers recs "abs" aT zT qF
        = Except.ok (recs.filter (fun r => decide (aT ≤ |r.difference|))) := rfl
      _ = Except.ok [] := by rw [this]

/-- C1 witness: with threshold 10 and a single record of difference 5, the abs
method returns the empty table. -/
theorem detect_abs_exact_witness :
    detectOutliers exSmall "abs" 10 0 0 = Except.ok [] :=
  (detect_abs_exact exSmall 10 0 0).2.2 (by
    intro r hr
    simp only [exSmall, List.mem_singleton] at hr
    subst hr
    norm_num)

/-- C4 counterexample: with zscore_threshold 0, on differences 0, 2, -2 (mean
0) the code keeps all three records — the record sitting exactly on the mean
included, because `|d - μ| >= 0 · σ` holds with `>=` — so the output is not
"every record except exactly those equal to the mean". -/
theorem zscore_zero_threshold_cex :
    detectOutliers exMean "zscore" 1 0 1 = Except.ok exMean
      ∧ exMean.head? = some { yearPair := "2019-2020", sensor := "Sensor 1", difference := 0 }
      ∧ listMean (exMean.map (fun r => r.difference)) = 0
      ∧ detectOutliers exMean "zscore" 1 0 1
          ≠ Except.ok (exMean.filter (fun r =>
              decide (r.difference ≠ listMean (exMean.map (fun s => s.difference))))) := by
  refine ⟨by with_unfolding_all rfl, rfl, by with_unfolding_all rfl, ?_⟩
  intro h
  have h' : detectOutliers exMean "zscore" 1 0 1
      = Except.ok (exMean.filter (fun r =>
          decide (r.difference ≠ listMean (exMean.map (fun s => s.difference))))) := h
  rw [show detectOutliers exMean "zscore" 1 0 1 = Except.ok exMean from by
    with_unfolding_all rfl] at h'
  exact absurd (Except.ok.inj h') (by with_unfolding_all decide)

/-- C4 amended: with zscore_threshold 0 and at least two records, the zscore
method keeps every record — including those whose difference equals the mean,
since `0 ≥ 0 · σ` holds with the source's `>=` comparison.  (With fewer than
two records the sample standard deviation is NaN and nothing is kept.) -/
theorem zscore_zero_threshold_flags_all (recs : List DiffRecord) (aT qF : ℚ)
    (h2 : 2 ≤ recs.length) :
    detectOutliers recs "zscore" aT 0 qF = Except.ok recs := by
  have hfilter : recs.filter (fun r =>
      zscoreKeep (recs.map (fun s => s.difference)) 0 r.difference) = recs := by
    rw [List.filter_eq_self]
    intro r _
    unfold zscoreKeep
    rw [if_neg (by simpa using not_lt.mpr h2), if_neg (lt_irrefl 0)]
    simp only [decide_eq_true_eq, zero_mul]
    exact mul_self_nonneg _
  calc detectOutliers recs "zscore" aT 0 qF
      = Except.ok (recs.filter (fun r =>
          zscoreKeep (recs.map (fun s => s.difference)) 0 r.difference)) := rfl
    _ = Except.ok recs := by rw [hfilter]

/-- C4 amended witness: on the three-record table the zscore method with
threshold 0 returns the whole table. -/
theorem zscore_zero_threshold_flags_all_witness :
    detectOutliers exMean "zscore" 1 0 1 = Except.ok exMean :=
  zscore_zero_threshold_flags_all exMean 1 1 (by decide)

/-- C5 counterexample: two records with the same difference 5 have sample
standard deviation 0 and mean 5; the code keeps both records — each of which
equals the mean — rather than keeping none, since `0 >= z · 0` holds. -/
theorem zscore_zero_sigma_cex :
    sampleVar (exFlat.map (fun r => r.difference)) = 0
      ∧ listMean (exFlat.map (fun r => r.difference)) = 5
      ∧ detectOutliers exFlat "zscore" 1 3 1 = Except.ok exFlat
      ∧ exFlat ≠ [] := by
  refine ⟨by with_unfolding_all rfl, by with_unfolding_all rfl,
    by with_unfolding_all rfl, by decide⟩

/-- C5 amended: when the sample standard deviation of the differences is zero
(and there are at least two records), the zscore method keeps every record and
does not fail: the right-hand side `z · σ` is 0 and the comparison
`|d - μ| >= 0` holds for every row; no division is performed on σ. -/
theorem zscore_zero_sigma_flags_all (recs : List DiffRecord) (aT z qF : ℚ)
    (h2 : 2 ≤ recs.length)
    (hv : sampleVar (recs.map (fun r => r.difference)) = 0) :
    detectOutliers recs "zscore" aT z qF = Except.ok recs := by
  have hfilter : recs.filter (fun r =>
      zscoreKeep (recs.map (fun s => s.difference)) z r.difference) = recs := by
    rw [List.filter_eq_self]
    intro r _
    unfold zscoreKeep
    rw [if_neg (by simpa using not_lt.mpr h2)]
    rcases lt_or_le z 0 with hz | hz
    · rw [if_pos hz]
    · rw [if_neg (not_lt.mpr hz)]
      simp only [decide_eq_true_eq, hv, mul_zero]
      exact mul_self_nonneg _
  calc detectOutliers recs "zscore" aT z qF
      = Except.ok (recs.filter (fun r =>
          zscoreKeep (recs.map (fun s => s.difference)) z r.difference)) := rfl
    _ = Except.ok recs := by rw [hfilter]

/-- C5 amended witness: the two-record zero-deviation table is returned
whole. -/
theorem zscore_zero_sigma_flags_all_witness :
    detectOutliers exFlat "zscore" 1 3 1 = Except.ok exFlat :=
  zscore_zero_sigma_flags_all exFlat 1 3 1 (by decide) (by with_unfolding_all rfl)

/-- C9: a method string outside abs/zscore/iqr makes `detect_outliers` raise
ValueError rather than defaulting, and at the run level the argparse choices
check rejects it fatally before the workbook is ever consulted: the run result
is the invalid-method error and is the same for every workbook and summary
table. -/
theorem invalid_method_fatal (m : String) (aT zT qF : ℚ) (b d : String)
    (hm : m ∉ methodChoices) :
    (∀ recs, detectOutliers recs m aT zT qF
        = Except.error ("Unknown method: " ++ m))
      ∧ (∀ wb s, pipelineRun m aT zT qF b d wb s
          = Except.error (RunErr.invalidMethodChoice m))
      ∧ (∀ wb wb' s s', pipelineRun m aT zT qF b d wb s
          = pipelineRun m aT zT qF b d wb' s') := by
  have habs : ¬ m = "abs" := by
    intro h; exact hm (by rw [h]; simp [methodChoices])
  have hz : ¬ m = "zscore" := by
    intro h; exact hm (by rw [h]; simp [methodChoices])
  have hq : ¬ m = "iqr" := by
    intro h; exact hm (by rw [h]; simp [methodChoices])
  refine ⟨?_, ?_, ?_⟩
  · intro recs
    unfold detectOutliers
    rw [if_neg habs, if_neg hz, if_neg hq]
  · intro wb s
    unfold pipelineRun
    rw [if_neg hm]
  · intro wb wb' s s'
    unfold pipelineRun
    rw [if_neg hm, if_neg hm]

/-- C9 witness: the method string "median" is rejected by the detector and by
the run, identically for two different workbooks. -/
theorem invalid_method_fatal_witness :
    detectOutliers exSmall "median" 1 0 0
        = Except.error ("Unknown method: " ++ "median")
      ∧ pipelineRun "median" 1 0 0 "b" "o" wbEx exSmall
          = Except.error (RunErr.invalidMethodChoice "median")
      ∧ pipelineRun "median" 1 0 0 "b" "o" wbEx exSmall
          = pipelineRun "median" 1 0 0 "b" "o" wbEx2 exMean := by
  have h := invalid_method_fatal "median" 1 0 0 "b" "o" (by decide)
  exact ⟨h.1 exSmall, h.2.1 wbEx exSmall, h.2.2 wbEx wbEx2 exSmall exMean⟩

/-- Inversion of a successful correction: a `.ok (some _)` result of the loop
body pins down every intermediate of lines 94-128 — the parsed sensor, the two
year tokens with the leftmost one naming the sheet, the loaded table, the
output path, the summary row, and the written table. -/
theorem correctOne_ok_some {wb : String → Option RawTable} {b d : String}
    {row : DiffRecord} {rec : CorrectionRecord} {p : String} {t : RawTable}
    (h : correctOne wb b d row = Except.ok (some (rec, p, t))) :
    ∃ (n : Int) (y1 y2 : Nat) (raw : RawTable),
      parseSensor row.sensor = Except.ok n
      ∧ findYears row.yearPair.toList = [y1, y2]
      ∧ wb ("Raw Data " ++ toString y1) = some raw
      ∧ raw.getLast?.isSome
      ∧ (dropTimeCol raw).any (fun q => q.1 == "V" ++ toString n)
      ∧ p = d ++ "/" ++ b ++ "_" ++ toString y1 ++ "_corrected.xlsx"
      ∧ rec = { yearPair := row.yearPair, sensor := n,
                origDiff := row.difference,
                offsetApplied := -row.difference, correctedFile := p }
      ∧ t = (dropTimeCol raw).map (fun q =>
          if q.1 == "V" ++ toString n then
            (q.1, q.2.map (fun v => v + -row.difference)) else q) := by
  unfold correctOne at h
  cases hs : parseSensor row.sensor with
  | error e => rw [hs] at h; exact absurd h (by simp)
  | ok n =>
    rw [hs] at h
    simp only at h
    by_cases hy : (findYears row.yearPair.toList).length = 2
    · rw [if_pos hy] at h
      obtain ⟨y1, y2, hys⟩ := List.length_eq_two.mp hy
      rw [hys] at h
      simp only [List.headD_cons] at h
      cases hw : wb ("Raw Data " ++ toString y1) with
      | none => rw [hw] at h; exact absurd h (by simp)
      | some raw =>
        rw [hw] at h
        simp only at h
        cases hl : raw.getLast? with
        | none => rw [hl] at h; exact absurd h (by simp)
        | some lc =>
          rw [hl] at h
          simp only at h
          by_cases ha : (dropTimeCol raw).any (fun q => q.1 == "V" ++ toString n)
          · rw [if_pos ha] at h
            simp only [Except.ok.injEq, Option.some.injEq, Prod.mk.injEq] at h
            obtain ⟨hrec, hp, ht⟩ := h
            refine ⟨n, y1, y2, raw, rfl, hys, hw, by rw [hl]; rfl, ha, hp.symm, ?_,
              ht.symm⟩
            rw [← hrec, ← hp]
          · rw [if_neg ha] at h
            exact absurd h (by simp)
    · rw [if_neg hy] at h
      exact absurd h (by simp)

/-- A skipped outlier (malformed label or unreadable sheet) contributes
nothing: the loop continues with the remaining outliers unchanged. -/
theorem runCorrections_cons_skip (wb : String → Option RawTable) (b d : String)
    (row : DiffRecord) (rest : List DiffRecord)
    (h : correctOne wb b d row = Except.ok none) :
    runCorrections wb b d (row :: rest) = runCorrections wb b d rest := by
  simp only [runCorrections, h]
  cases hr : runCorrections wb b d rest with
  | error e => rfl
  | ok pr => obtain ⟨recs, writes⟩ := pr; rfl

/-- An uncaught exception in the loop body aborts the whole loop with that
exception; no later outlier is processed. -/
theorem runCorrections_cons_error (wb : String → Option RawTable) (b d : String)
    (row : DiffRecord) (rest : List DiffRecord) (e : PipelineErr)
    (h : correctOne wb b d row = Except.error e) :
    runCorrections wb b d (row :: rest) = Except.error e := by
  simp only [runCorrections, h]

/-- A successful correction contributes its summary row and its file write, in
front of whatever the rest of the loop produces. -/
theorem runCorrections_cons_ok (wb : String → Option RawTable) (b d : String)
    (row : DiffRecord) (rest : List DiffRecord) (rec : CorrectionRecord)
    (p : String) (t : RawTable) (recs : List CorrectionRecord)
    (writes : List (String × RawTable))
    (h : correctOne wb b d row = Except.ok (some (rec, p, t)))
    (hr : runCorrections wb b d rest = Except.ok (recs, writes)) :
    runCorrections wb b d (row :: rest)
      = Except.ok (rec :: recs, (p, t) :: writes) := by
  simp only [runCorrections, h, hr]

/-- Adding an offset to the column named `c` leaves every column name in place
and maps exactly the selected column. -/
theorem getCol_map_update (u : RawTable) (c : String) (f : ℚ → ℚ) :
    getCol (u.map (fun q => if q.1 == c then (q.1, q.2.map f) else q)) c
      = (getCol u c).map (fun vs => vs.map f) := by
  induction u with
  | nil => rfl
  | cons a u ih =>
    cases hb : (a.1 == c) with
    | true => simp [getCol, List.find?, hb]
    | false => simpa [getCol, List.find?, hb] using ih

/-- C2: every successful correction records `offset_applied = -original
difference`, and the written table's sensor column is the loaded sheet's
sensor column (after the timestamp drop) with the original difference
subtracted from every value. -/
theorem correction_offset_roundtrip (wb : String → Option RawTable)
    (b d : String) (row : DiffRecord) (rec : CorrectionRecord) (p : String)
    (t : RawTable) (y1 y2 : Nat) (raw : RawTable)
    (h : correctOne wb b d row = Except.ok (some (rec, p, t)))
    (hy : findYears row.yearPair.toList = [y1, y2])
    (hw : wb ("Raw Data " ++ toString y1) = some raw) :
    rec.offsetApplied = -rec.origDiff
      ∧ rec.origDiff = row.difference
      ∧ getCol t ("V" ++ toString rec.sensor)
          = (getCol (dropTimeCol raw) ("V" ++ toString rec.sensor)).map
              (fun vs => vs.map (fun v => v - rec.origDiff)) := by
  obtain ⟨n, y1', y2', raw', hs, hy', hw', hlast, hany, hp, hrec, ht⟩ :=
    correctOne_ok_some h
  rw [hy] at hy'
  obtain ⟨hy1, _⟩ := by simpa using hy'
  rw [← hy1] at hw'
  rw [hw] at hw'
  have hraw : raw' = raw := by simpa using hw'.symm
  subst hraw
  have hsub : (fun v : ℚ => v + -row.difference)
      = (fun v : ℚ => v - row.difference) := by
    funext v; rw [sub_eq_add_neg]
  refine ⟨by rw [hrec], by rw [hrec], ?_⟩
  rw [ht, hrec]
  simp only
  rw [hsub, getCol_map_update]

/-- C2 witness: on the example workbook, sensor 1's column [10, 11] with
difference 2 is written as [8, 9] and the summary row stores offset -2. -/
theorem correction_offset_roundtrip_witness :
    crS1.offsetApplied = -crS1.origDiff
      ∧ crS1.origDiff = rowS1.difference
      ∧ getCol tS1 ("V" ++ toString crS1.sensor)
          = (getCol (dropTimeCol
                [("V1", [10, 11]), ("V2", [20, 21]), ("TimeStamp", [0, 1])])
              ("V" ++ toString crS1.sensor)).map
              (fun vs => vs.map (fun v => v - crS1.origDiff)) :=
  correction_offset_roundtrip wbEx "b" "o" rowS1 crS1 "o/b_2020_corrected.xlsx"
    tS1 2020 2021 [("V1", [10, 11]), ("V2", [20, 21]), ("TimeStamp", [0, 1])]
    (by with_unfolding_all rfl) (by decide) (by rfl)

/-- C7: when the sensor label parses but the year-pair label does not contain
exactly two 4-digit year tokens, the record is skipped without aborting: the
loop body yields no correction record and no file write, and the run continues
with the remaining outliers exactly as if the record were absent. -/
theorem malformed_year_pair_skipped (wb : String → Option RawTable)
    (b d : String) (row : DiffRecord) (rest : List DiffRecord) (n : Int)
    (hs : parseSensor row.sensor = Except.ok n)
    (hy : (findYears row.yearPair.toList).length ≠ 2) :
    correctOne wb b d row = Except.ok none
      ∧ runCorrections wb b d (row :: rest) = runCorrections wb b d rest := by
  have h1 : correctOne wb b d row = Except.ok none := by
    unfold correctOne
    rw [hs]
    simp only
    rw [if_neg hy]
  exact ⟨h1, runCorrections_cons_skip wb b d row rest h1⟩

/-- C7 witness: the three-year label "2020-2021-2022" is skipped and the
two-record run collapses to the run on the remaining record. -/
theorem malformed_year_pair_skipped_witness :
    correctOne wbEx "b" "o" rowBadPair = Except.ok none
      ∧ runCorrections wbEx "b" "o" (rowBadPair :: [rowS1])
          = runCorrections wbEx "b" "o" [rowS1] :=
  malformed_year_pair_skipped wbEx "b" "o" rowBadPair [rowS1] 1
    (by with_unfolding_all rfl) (by decide)

/-- C6: with exactly two year tokens parsed from the label, the loop body
consults the workbook only at sheet "Raw Data {first token}" — whichever of
the two years that is — and any successful output path embeds that same
leftmost year. -/
theorem target_sheet_leftmost_year (b d : String) (row : DiffRecord) (n : Int)
    (y1 y2 : Nat) (hs : parseSensor row.sensor = Except.ok n)
    (hy : findYears row.yearPair.toList = [y1, y2]) :
    (∀ wb wb' : String → Option RawTable,
        wb ("Raw Data " ++ toString y1) = wb' ("Raw Data " ++ toString y1) →
        correctOne wb b d row = correctOne wb' b d row)
      ∧ (∀ (wb : String → Option RawTable) (rec : CorrectionRecord)
          (p : String) (t : RawTable),
          correctOne wb b d row = Except.ok (some (rec, p, t)) →
          p = d ++ "/" ++ b ++ "_" ++ toString y1 ++ "_corrected.xlsx") := by
  constructor
  · intro wb wb' hww
    unfold correctOne
    rw [hs]
    simp only
    rw [hy]
    simp only [List.length_cons, List.length_nil, List.headD_cons]
    rw [hww]
  · intro wb rec p t h
    obtain ⟨n', y1', y2', raw', hs', hy'', hw', hlast, hany, hp, hrec, ht⟩ :=
      correctOne_ok_some h
    rw [hy] at hy''
    obtain ⟨hy1, _⟩ := by simpa using hy''
    rw [hp, ← hy1]

/-- C6 witness: `rowS1` behaves identically on the two example workbooks,
which agree on "Raw Data 2020" and nothing else, and the output path embeds
2020 (the leftmost token of "2020-2021"). -/
theorem target_sheet_leftmost_year_witness :
    correctOne wbEx "b" "o" rowS1 = correctOne wbEx2 "b" "o" rowS1
      ∧ ("o/b_2020_corrected.xlsx" : String)
          = "o" ++ "/" ++ "b" ++ "_" ++ toString (2020 : Nat)
              ++ "_corrected.xlsx" := by
  have h := target_sheet_leftmost_year "b" "o" rowS1 1 2020 2021
    (by with_unfolding_all rfl) (by decide)
  exact ⟨h.1 wbEx wbEx2 (by rfl),
    h.2 wbEx crS1 "o/b_2020_corrected.xlsx" tS1 (by with_unfolding_all rfl)⟩

/-- Adding an offset to one column leaves the list of column names unchanged. -/
theorem map_fst_update (u : RawTable) (c : String) (f : ℚ → ℚ) :
    (u.map (fun q => if q.1 == c then (q.1, q.2.map f) else q)).map Prod.fst
      = u.map Prod.fst := by
  induction u with
  | nil => rfl
  | cons a u ih =>
    cases hb : (a.1 == c) with
    | true =>
      simp only [List.map_cons, hb, if_true]
      rw [ih]
    | false =>
      simp only [List.map_cons, hb, Bool.false_eq_true, if_false]
      rw [ih]

/-- A column with a name other than the updated one is carried over
unchanged. -/
theorem mem_update_of_ne (u : RawTable) (c : String) (f : ℚ → ℚ)
    (q : String × List ℚ)
    (hq : q ∈ u.map (fun r => if r.1 == c then (r.1, r.2.map f) else r))
    (hne : ¬ q.1 = c) : q ∈ u := by
  obtain ⟨a, ha, haq⟩ := List.mem_map.mp hq
  cases hb : (a.1 == c) with
  | true =>
    exfalso
    apply hne
    rw [← haq]
    simp only [hb, if_true]
    exact eq_of_beq hb
  | false =>
    rw [if_neg (by simp [hb])] at haq
    rwa [← haq]

/-- C8: when the loaded sheet's last column name contains "time"
case-insensitively, that column is dropped before the arithmetic: the written
table is the offset update of `raw.dropLast`, its column-name list is exactly
the original list minus the last entry, and every column other than the
corrected sensor column is carried over unchanged. -/
theorem time_column_dropped (wb : String → Option RawTable) (b d : String)
    (row : DiffRecord) (rec : CorrectionRecord) (p : String) (t : RawTable)
    (y1 y2 : Nat) (raw : RawTable) (lc : String × List ℚ)
    (h : correctOne wb b d row = Except.ok (some (rec, p, t)))
    (hy : findYears row.yearPair.toList = [y1, y2])
    (hw : wb ("Raw Data " ++ toString y1) = some raw)
    (hl : raw.getLast? = some lc)
    (htime : containsTime lc.1 = true) :
    t = (raw.dropLast).map (fun q =>
        if q.1 == "V" ++ toString rec.sensor then
          (q.1, q.2.map (fun v => v + rec.offsetApplied)) else q)
      ∧ t.map Prod.fst = (raw.dropLast).map Prod.fst
      ∧ ∀ q ∈ t, ¬ q.1 = "V" ++ toString rec.sensor → q ∈ raw.dropLast := by
  obtain ⟨n, y1', y2', raw', hs, hy', hw', hlast, hany, hp, hrec, ht⟩ :=
    correctOne_ok_some h
  rw [hy] at hy'
  obtain ⟨hy1, _⟩ := by simpa using hy'
  rw [← hy1] at hw'
  rw [hw] at hw'
  have hraw : raw' = raw := by simpa using hw'.symm
  rw [hraw] at ht
  have hdrop : dropTimeCol raw = raw.dropLast := by
    unfold dropTimeCol
    rw [hl]
    simp only
    rw [if_pos htime]
  have hfields : rec.sensor = n ∧ rec.offsetApplied = -row.difference := by
    rw [hrec]; exact ⟨rfl, rfl⟩
  have ht' : t = (raw.dropLast).map (fun q =>
      if q.1 == "V" ++ toString rec.sensor then
        (q.1, q.2.map (fun v => v + rec.offsetApplied)) else q) := by
    rw [ht, hdrop, hfields.1, hfields.2]
  refine ⟨ht', ?_, ?_⟩
  · rw [ht']
    exact map_fst_update raw.dropLast ("V" ++ toString rec.sensor)
      (fun v => v + rec.offsetApplied)
  · intro q hq hne
    rw [ht'] at hq
    exact mem_update_of_ne raw.dropLast ("V" ++ toString rec.sensor)
      (fun v => v + rec.offsetApplied) q hq hne

/-- C8 witness: on the example workbook the written table for `rowS1` has
column names V1, V2 — the trailing TimeStamp column is gone. -/
theorem time_column_dropped_witness :
    tS1.map Prod.fst
      = (([("V1", [10, 11]), ("V2", [20, 21]),
          ("TimeStamp", [0, 1])] : RawTable).dropLast).map Prod.fst :=
  (time_column_dropped wbEx "b" "o" rowS1 crS1 "o/b_2020_corrected.xlsx" tS1
    2020 2021 [("V1", [10, 11]), ("V2", [20, 21]), ("TimeStamp", [0, 1])]
    ("TimeStamp", [0, 1]) (by with_unfolding_all rfl) (by decide) (by rfl)
    (by rfl) (by decide)).2.1

/-- C3 counterexample: on the example workbook, the run over the outlier list
[rowS5, rowS1] aborts at rowS5 — sheet "Raw Data 2020" has no column "V5", the
resulting KeyError is outside the try/except (which only wraps the sheet
read), so the loop stops with the error — even though the remaining outlier
rowS1 on its own corrects successfully.  The orchestrator does not catch a
missing sensor column and does not continue. -/
theorem missing_column_aborts_run_cex :
    runCorrections wbEx "b" "o" [rowS5, rowS1]
        = Except.error (PipelineErr.missingColumn "V5")
      ∧ correctOne wbEx "b" "o" rowS1
          = Except.ok (some (crS1, "o/b_2020_corrected.xlsx", tS1)) :=
  ⟨by with_unfolding_all rfl, by with_unfolding_all rfl⟩

/-- C3 amended: errors local to one outlier of the kinds the source guards —
a malformed or sheet-less lookup yielding a skip — never abort the run, which
continues with the remaining outliers; but a resolved sensor column absent
from the loaded raw table (MissingSensorColumn) raises an uncaught KeyError
that aborts the whole run, remaining outliers unprocessed. -/
theorem error_locality_amended :
    (∀ (wb : String → Option RawTable) (b d : String) (row : DiffRecord)
        (rest : List DiffRecord),
        correctOne wb b d row = Except.ok none →
        runCorrections wb b d (row :: rest) = runCorrections wb b d rest)
      ∧ (∀ (wb : String → Option RawTable) (b d : String) (row : DiffRecord)
          (n : Int) (y1 y2 : Nat) (raw : RawTable),
          parseSensor row.sensor = Except.ok n →
          findYears row.yearPair.toList = [y1, y2] →
          wb ("Raw Data " ++ toString y1) = some raw →
          raw.getLast?.isSome = true →
          (dropTimeCol raw).any (fun q => q.1 == "V" ++ toString n) = false →
          correctOne wb b d row
            = Except.error (PipelineErr.missingColumn ("V" ++ toString n)))
      ∧ (∀ (wb : String → Option RawTable) (b d : String) (row : DiffRecord)
          (rest : List DiffRecord) (e : PipelineErr),
          correctOne wb b d row = Except.error e →
          runCorrections wb b d (row :: rest) = Except.error e) := by
  refine ⟨runCorrections_cons_skip, ?_, runCorrections_cons_error⟩
  intro wb b d row n y1 y2 raw hs hy hw hlast hnone
  unfold correctOne
  rw [hs]
  simp only
  rw [hy]
  simp only [List.length_cons, List.length_nil, List.headD_cons]
  rw [if_pos trivial, hw]
  simp only
  obtain ⟨lc, hl⟩ := Option.isSome_iff_exists.mp hlast
  rw [hl]
  simp only
  rw [if_neg (by simp [hnone])]

/-- C3 amended witness: rowS5 (sensor 5, absent from the 2020 sheet) makes the
loop body fail with the KeyError, and the two-outlier run aborts with it. -/
theorem error_locality_amended_witness :
    correctOne wbEx "b" "o" rowS5
        = Except.error (PipelineErr.missingColumn "V5")
      ∧ runCorrections wbEx "b" "o" (rowS5 :: [rowS1])
          = Except.error (PipelineErr.missingColumn "V5") := by
  have h2 : correctOne wbEx "b" "o" rowS5
      = Except.error (PipelineErr.missingColumn "V5") :=
    error_locality_amended.2.1 wbEx "b" "o" rowS5 5 2020 2021
      [("V1", [10, 11]), ("V2", [20, 21]), ("TimeStamp", [0, 1])]
      (by with_unfolding_all rfl) (by decide) (by rfl) (by rfl)
      (by with_unfolding_all rfl)
  exact ⟨h2, error_locality_amended.2.2 wbEx "b" "o" rowS5 [rowS1] _ h2⟩

/-- C10: two successful corrections whose labels parse to the same leftmost
year write to the same path — the path mentions the base name and the year but
not the sensor — the two-outlier run performs both writes in order, each
produced from the pristine workbook (the loop body is a function of `wb`
alone, so the second write contains only the second correction), and the
final content of the shared path is the second write. -/
theorem same_year_path_last_write (wb : String → Option RawTable)
    (b d : String) (r1 r2 : DiffRecord) (rec1 rec2 : CorrectionRecord)
    (p1 p2 : String) (t1 t2 : RawTable)
    (h1 : correctOne wb b d r1 = Except.ok (some (rec1, p1, t1)))
    (h2 : correctOne wb b d r2 = Except.ok (some (rec2, p2, t2)))
    (hy : (findYears r1.yearPair.toList).headD 0
        = (findYears r2.yearPair.toList).headD 0) :
    p1 = p2
      ∧ runCorrections wb b d [r1, r2]
          = Except.ok ([rec1, rec2], [(p1, t1), (p2, t2)])
      ∧ lastWrite [(p1, t1), (p2, t2)] p1 = some t2 := by
  obtain ⟨n1, a1, b1, raw1, hs1, hy1, hw1, hl1, ha1, hp1, hrec1, ht1⟩ :=
    correctOne_ok_some h1
  obtain ⟨n2, a2, b2, raw2, hs2, hy2, hw2, hl2, ha2, hp2, hrec2, ht2⟩ :=
    correctOne_ok_some h2
  have hhead : a1 = a2 := by
    rw [hy1, hy2] at hy
    simpa using hy
  have hpp : p1 = p2 := by rw [hp1, hp2, hhead]
  refine ⟨hpp, ?_, ?_⟩
  · exact runCorrections_cons_ok wb b d r1 [r2] rec1 p1 t1 [rec2] [(p2, t2)] h1
      (runCorrections_cons_ok wb b d r2 [] rec2 p2 t2 [] [] h2 rfl)
  · rw [← hpp]
    unfold lastWrite
    simp [List.filter, List.getLast?]

/-- C10 witness: sensors 1 and 2 of the same 2020-2021 pair both write
"o/b_2020_corrected.xlsx"; the run performs both writes and the surviving
content is the second correction only (V1 untouched, V2 shifted). -/
theorem same_year_path_last_write_witness :
    ("o/b_2020_corrected.xlsx" : String) = "o/b_2020_corrected.xlsx"
      ∧ runCorrections wbEx "b" "o" [rowS1, rowS2]
          = Except.ok ([crS1, crS2],
              [("o/b_2020_corrected.xlsx", tS1),
               ("o/b_2020_corrected.xlsx", tS2)])
      ∧ lastWrite [("o/b_2020_corrected.xlsx", tS1),
            ("o/b_2020_corrected.xlsx", tS2)] "o/b_2020_corrected.xlsx"
          = some tS2 :=
  same_year_path_last_write wbEx "b" "o" rowS1 rowS2 crS1 crS2
    "o/b_2020_corrected.xlsx" "o/b_2020_corrected.xlsx" tS1 tS2
    (by with_unfolding_all rfl) (by with_unfolding_all rfl) (by decide)
